import Mathlib

/-!
Verification development for the nanobanana Telegram bot's quota-reservation and
multi-provider-fallback pipeline.

The definitions below are a shallow embedding of the TypeScript sources:
* the per-user limit store (`reserveGenerationSlot`, `releaseReservedSlot`,
  `getUserStats`) from the `userLimits` section of `src/geminiImageGenerationTool.ts`;
* the two-step Telegram workflow (`step1` / `step2`) from `src/telegramBotWorkflow.ts`;
* the provider-fallback loop of `generateNanoBananoImage` from `src/nanoBananoGenerator.ts`.

Calendar dates are modelled as day ordinals (`Nat`); `today` is passed explicitly and
`CURRENT_DATE` in the SQL becomes that parameter.  The database is modelled per user:
the single user's row in the `users` table is an `Option UserRecord` (`none` = no row).
Storage failure (a query throwing) is an explicit `dbFails : Bool` parameter.
Every acquisition of the shared `pg` pool and every issued query is recorded in an
event trace so that claims about "touching the pool" are statable.
-/

/-- A row of the `users` table: `username`, `daily_image_count`, `last_reset_date`
(as in the schema documented in the repository's database setup notes). -/
structure UserRecord where
  username : String
  daily_image_count : Nat
  last_reset_date : Nat
deriving Repr, DecidableEq

/-- The `UserLimitResult` interface of `src/geminiImageGenerationTool.ts` (the
spec's transient Reservation Outcome).  The optional `message` field is always
set by the modelled code paths, so it is embedded as a plain `String`. -/
structure UserLimitResult where
  canGenerate : Bool
  dailyCount : Nat
  remaining : Nat
  isAdmin : Bool
  limitReached : Bool
  message : String
deriving Repr, DecidableEq

/-- Events on the shared `pg` connection pool: acquiring a client
(`pool.connect()`), issuing a query (`client.query(...)`), and releasing the
client (`client.release()` in the `finally` block). -/
inductive PoolEvent where
  | connect
  | query
  | release
deriving Repr, DecidableEq

/-- `DAILY_LIMIT_PRIVATE = 3` in `src/geminiImageGenerationTool.ts`. -/
def DAILY_LIMIT_PRIVATE : Nat := 3

/-- `DAILY_LIMIT_GROUP = 30` in `src/geminiImageGenerationTool.ts`. -/
def DAILY_LIMIT_GROUP : Nat := 30

/-- `ADMIN_USER_ID = "6913446846"` in `src/geminiImageGenerationTool.ts`. -/
def ADMIN_USER_ID : String := "6913446846"

/-- Limit selection: `(chatType === "private") ? DAILY_LIMIT_PRIVATE : DAILY_LIMIT_GROUP`. -/
def dailyLimitFor (chatType : String) : Nat :=
  if chatType = "private" then DAILY_LIMIT_PRIVATE else DAILY_LIMIT_GROUP

/-- The admin result object returned by `reserveGenerationSlot` and `getUserStats`. -/
def adminResult : UserLimitResult :=
  { canGenerate := true
    dailyCount := 0
    remaining := 999
    isAdmin := true
    limitReached := false
    message := "Администратор - безлимитный доступ" }

/-- Message of the fail-closed result built in the `catch` block of
`reserveGenerationSlot`. -/
def dbErrorMessage : String := "❌ Ошибка резервирования слота. Попробуйте позже."

/-- The fail-closed result built in the `catch` block of `reserveGenerationSlot`:
database errors deny generation. -/
def dbErrorResult : UserLimitResult :=
  { canGenerate := false
    dailyCount := 0
    remaining := 0
    isAdmin := false
    limitReached := true
    message := dbErrorMessage }

/-- The private-chat limit-reached message template of `reserveGenerationSlot`. -/
def privateLimitMessage (dailyLimit : Nat) : String :=
  "🎯 *Тестовый период закончен!* Вы использовали " ++ toString dailyLimit ++
  " бесплатных генерации.\n\n💳 *Для получения безлимитных генераций:*\n• Оплатите по СБП: *89935801642* (Альфа Банк, Дмитрий)\n• Отправьте скриншот платежки @dmitriy_ferixdi\n\n🎁 *Участники общей подписки получают доступ бесплатно и безлимитно!*\n\n✨ После оплаты получите неограниченный доступ!"

/-- The group-chat limit-reached message template of `reserveGenerationSlot`. -/
def groupLimitMessage (dailyLimit : Nat) : String :=
  "💰 *Лимит группового чата исчерпан!* Использовано " ++ toString dailyLimit ++
  " генераций.\n\n🔄 Лимит обновится завтра в 00:00 МСК.\n\n💬 Личные сообщения: " ++
  toString DAILY_LIMIT_PRIVATE ++ " изображений/день"

/-- Message attached to a granted reservation with slots still remaining. -/
def reservedMessage (remaining dailyLimit : Nat) : String :=
  "Слот зарезервирован! Осталось " ++ toString remaining ++ " из " ++
  toString dailyLimit ++ " запросов на сегодня."

/-- Message attached to a granted reservation that consumed the last slot. -/
def lastRequestMessage : String :=
  "Слот зарезервирован! Это ваш последний запрос на сегодня."

/-- Step 1 of `reserveGenerationSlot`: the upsert
`INSERT ... ON CONFLICT (user_id) DO UPDATE SET username = EXCLUDED.username,
daily_image_count = CASE WHEN users.last_reset_date < CURRENT_DATE THEN 0 ELSE ... END,
last_reset_date = CASE WHEN users.last_reset_date < CURRENT_DATE THEN CURRENT_DATE ELSE ... END`.
One atomic statement acting on this user's row. -/
def upsertUserQuery (today : Nat) (username : String) (db : Option UserRecord) : UserRecord :=
  match db with
  | none =>
      { username := username, daily_image_count := 0, last_reset_date := today }
  | some u =>
      { username := username
        daily_image_count := if u.last_reset_date < today then 0 else u.daily_image_count
        last_reset_date := if u.last_reset_date < today then today else u.last_reset_date }

/-- Step 2 of `reserveGenerationSlot`: the conditional increment
`UPDATE users SET daily_image_count = daily_image_count + 1
WHERE user_id = $1 AND daily_image_count < $2 RETURNING daily_image_count`.
One atomic statement; the second component is the returned row (`none` when the
predicate failed and no row was updated). -/
def condIncrementQuery (dailyLimit : Nat) (u : UserRecord) : UserRecord × Option Nat :=
  if u.daily_image_count < dailyLimit then
    ({ u with daily_image_count := u.daily_image_count + 1 }, some (u.daily_image_count + 1))
  else
    (u, none)

/-- Output of `reserveGenerationSlot`: the returned `UserLimitResult`, the user's
row after the call, and the trace of pool events the call performed. -/
structure ReserveOutput where
  result : UserLimitResult
  db : Option UserRecord
  events : List PoolEvent
deriving Repr, DecidableEq

/-- The non-admin tail of `reserveGenerationSlot` after the upsert: run the
conditional increment, then build the result exactly as the source does
(`finalCount = queryResult ? queryResult.final_count : dailyLimit`,
`remaining = Math.max(0, dailyLimit - finalCount)`). -/
def reserveCore (dailyLimit : Nat) (chatType : String) (u : UserRecord) : ReserveOutput :=
  match condIncrementQuery dailyLimit u with
  | (u2, some finalCount) =>
      { result :=
          { canGenerate := true
            dailyCount := finalCount
            remaining := max 0 (dailyLimit - finalCount)
            isAdmin := false
            limitReached := false
            message := if max 0 (dailyLimit - finalCount) > 0 then
                reservedMessage (max 0 (dailyLimit - finalCount)) dailyLimit
              else lastRequestMessage }
        db := some u2
        events := [PoolEvent.connect, PoolEvent.query, PoolEvent.query, PoolEvent.release] }
  | (u2, none) =>
      { result :=
          { canGenerate := false
            dailyCount := dailyLimit
            remaining := 0
            isAdmin := false
            limitReached := true
            message := if chatType = "private" then privateLimitMessage dailyLimit
              else groupLimitMessage dailyLimit }
        db := some u2
        events := [PoolEvent.connect, PoolEvent.query, PoolEvent.query, PoolEvent.release] }

/-- `reserveGenerationSlot(userId, username, chatType)` from
`src/geminiImageGenerationTool.ts`.  The pool client is acquired before the
admin check; the admin path returns without issuing any query; otherwise the
upsert and the conditional increment run in order.  `dbFails = true` models the
queries throwing, which the `catch` block turns into the fail-closed result. -/
def reserveGenerationSlot (today : Nat) (userId username chatType : String)
    (dbFails : Bool) (db : Option UserRecord) : ReserveOutput :=
  if userId = ADMIN_USER_ID then
    { result := adminResult, db := db, events := [PoolEvent.connect, PoolEvent.release] }
  else if dbFails then
    { result := dbErrorResult, db := db
      events := [PoolEvent.connect, PoolEvent.query, PoolEvent.release] }
  else
    reserveCore (dailyLimitFor chatType) chatType (upsertUserQuery today username db)

/-- `releaseReservedSlot(userId)` from `src/geminiImageGenerationTool.ts`:
`UPDATE users SET daily_image_count = GREATEST(daily_image_count - 1, 0)
WHERE user_id = $1 AND last_reset_date = CURRENT_DATE AND daily_image_count > 0`.
The pool client is acquired before the admin check; the admin path issues no
query; a thrown query error is swallowed by the `catch` block. -/
def releaseReservedSlot (today : Nat) (userId : String) (dbFails : Bool)
    (db : Option UserRecord) : Option UserRecord × List PoolEvent :=
  if userId = ADMIN_USER_ID then
    (db, [PoolEvent.connect, PoolEvent.release])
  else if dbFails then
    (db, [PoolEvent.connect, PoolEvent.query, PoolEvent.release])
  else
    match db with
    | none => (none, [PoolEvent.connect, PoolEvent.query, PoolEvent.release])
    | some u =>
        if u.last_reset_date = today ∧ u.daily_image_count > 0 then
          (some { u with daily_image_count := max (u.daily_image_count - 1) 0 },
           [PoolEvent.connect, PoolEvent.query, PoolEvent.release])
        else
          (some u, [PoolEvent.connect, PoolEvent.query, PoolEvent.release])

/-- The stats limit-reached message of `getUserStats`. -/
def statsLimitMessage (currentCount dailyLimit : Nat) : String :=
  "Превышен дневной лимит! Использовано " ++ toString currentCount ++ "/" ++
  toString dailyLimit ++ " запросов."

/-- The stats under-limit message of `getUserStats`. -/
def statsOkMessage (currentCount dailyLimit remaining : Nat) : String :=
  "Использовано " ++ toString currentCount ++ "/" ++ toString dailyLimit ++
  " запросов. Осталось: " ++ toString remaining

/-- `getUserStats(userId, chatType)` from `src/geminiImageGenerationTool.ts`:
a pure read with the virtual lazy reset
(`CASE WHEN last_reset_date < CURRENT_DATE THEN 0 ELSE daily_image_count END`).
Returns `none` when the user has no row (`result.rows.length === 0`) and when
the query throws (the `catch` block returns `null`). -/
def getUserStats (today : Nat) (userId chatType : String) (dbFails : Bool)
    (db : Option UserRecord) : Option UserLimitResult × List PoolEvent :=
  if userId = ADMIN_USER_ID then
    (some adminResult, [PoolEvent.connect, PoolEvent.release])
  else if dbFails then
    (none, [PoolEvent.connect, PoolEvent.query, PoolEvent.release])
  else
    match db with
    | none => (none, [PoolEvent.connect, PoolEvent.query, PoolEvent.release])
    | some u =>
        let currentCount := if u.last_reset_date < today then 0 else u.daily_image_count
        let dailyLimit := dailyLimitFor chatType
        let remaining := max 0 (dailyLimit - currentCount)
        let limitReached := decide (currentCount ≥ dailyLimit)
        (some
          { canGenerate := !limitReached
            dailyCount := currentCount
            remaining := remaining
            isAdmin := false
            limitReached := limitReached
            message := if limitReached then statsLimitMessage currentCount dailyLimit
              else statsOkMessage currentCount dailyLimit remaining },
         [PoolEvent.connect, PoolEvent.query, PoolEvent.release])

/-- Modelled from the spec: `incrementUserImageCount` lives in `server/storage.ts`,
which is not among the sources.  The repository's database setup notes document it
as "Increment user's daily count" on the `users` table (the same
`daily_image_count` / `last_reset_date` columns the limit store queries), with the
daily reset "implemented through the `last_reset_date` check inside the functions",
and `src/nanoBananoGenerator.ts` reads `daily_image_count` off the row it returns.
So: apply the lazy reset, then increment `daily_image_count` by one, returning the
updated row. -/
def incrementUserImageCount (today : Nat) (db : Option UserRecord) : Option UserRecord :=
  match db with
  | none => none
  | some u =>
      if u.last_reset_date < today then
        some { u with daily_image_count := 1, last_reset_date := today }
      else
        some { u with daily_image_count := u.daily_image_count + 1 }

/-- Outcome of one run of the two-step Telegram workflow: the user's row
afterwards, whether step 1 reported success, whether an image was produced, and
whether step 2 delivered it. -/
structure WorkflowOutput where
  db : Option UserRecord
  step1Success : Bool
  imageProduced : Bool
  delivered : Bool
deriving Repr, DecidableEq

/-- One run of `telegramBotWorkflow` (`step1` then `step2`) from
`src/telegramBotWorkflow.ts`, for a generation request.  `genOk` is the outcome
of `generateImageWithHubaiGemini` (external provider call), `deliveryOk` the
outcome of the Telegram send in step 2.  Step 1 reserves a slot, releases it
when generation fails for a non-admin, and passes an image path on success;
step 2, after a successful `sendPhoto`, calls `incrementUserImageCount`
("Incrementing user image count after successful delivery"), while its `catch`
block returns failure without touching the quota. -/
def runGenerationWorkflow (today : Nat) (userId username chatType : String)
    (genOk deliveryOk : Bool) (db : Option UserRecord) : WorkflowOutput :=
  let r := reserveGenerationSlot today userId username chatType false db
  if !r.result.canGenerate then
    { db := r.db, step1Success := false, imageProduced := false, delivered := deliveryOk }
  else if genOk then
    if deliveryOk then
      { db := incrementUserImageCount today r.db
        step1Success := true, imageProduced := true, delivered := true }
    else
      { db := r.db, step1Success := true, imageProduced := true, delivered := false }
  else
    { db := if r.result.isAdmin then r.db else (releaseReservedSlot today userId false r.db).1
      step1Success := false, imageProduced := false, delivered := deliveryOk }

/-- An atomic quota-store statement, as issued by a `reserveGenerationSlot` call:
each call performs its upsert and then its conditional increment, and the
relational backend serializes the statements of concurrent calls in some order. -/
inductive QuotaOp where
  | upsert (username : String)
  | condInc
deriving Repr, DecidableEq

/-- Effect of one atomic statement on the user's row.  The second component
records whether the statement was a conditional increment that updated the row,
i.e. whether the issuing call gets `canGenerate = true`. -/
def applyQuotaOp (today dailyLimit : Nat) (s : Option UserRecord) :
    QuotaOp → Option UserRecord × Bool
  | QuotaOp.upsert username => (some (upsertUserQuery today username s), false)
  | QuotaOp.condInc =>
      match s with
      | none => (none, false)
      | some u =>
          match condIncrementQuery dailyLimit u with
          | (u2, r) => (some u2, r.isSome)

/-- Run a serialized trace of atomic quota-store statements, returning the final
row and the number of granted (row-updating) conditional increments. -/
def runQuotaTrace (today dailyLimit : Nat) :
    List QuotaOp → Option UserRecord → Option UserRecord × Nat
  | [], s => (s, 0)
  | op :: ops, s =>
      match applyQuotaOp today dailyLimit s op with
      | (s2, granted) =>
          match runQuotaTrace today dailyLimit ops s2 with
          | (s3, g) => (s3, (if granted then 1 else 0) + g)

/-- The result object each generation method of `src/nanoBananoGenerator.ts`
resolves with: `{success: boolean, imageBase64?: string, message?: string}`. -/
structure MethodResult where
  success : Bool
  imageBase64 : Option String
  message : Option String
deriving Repr, DecidableEq

/-- One attempt of a generation method: it either resolves with a
`MethodResult` or throws (the loop catches the exception). -/
inductive MethodOutcome where
  | returns (r : MethodResult)
  | throws (err : String)
deriving Repr, DecidableEq

/-- JavaScript truthiness of the optional `imageBase64` string: absent and
empty strings are falsy. -/
def truthyStr : Option String → Bool
  | none => false
  | some s => !(s == "")

/-- JavaScript `x || dflt` on an optional string: absent and empty strings fall
back to the default. -/
def jsOr (x : Option String) (dflt : String) : String :=
  match x with
  | none => dflt
  | some s => if s == "" then dflt else s

/-- Whether the loop accepts an attempt: `result.success && result.imageBase64`
(a thrown attempt is never accepted). -/
def isSuccessOutcome : MethodOutcome → Bool
  | MethodOutcome.returns r => r.success && truthyStr r.imageBase64
  | MethodOutcome.throws _ => false

/-- The error string an unaccepted attempt leaves in `lastError`:
`result.message || "Неизвестная ошибка"` for a reported failure, the exception
message for a thrown one. -/
def outcomeToError : MethodOutcome → String
  | MethodOutcome.returns r => jsOr r.message ("Неизвестная ошибка")
  | MethodOutcome.throws err => err

/-- Output of the fallback loop: the accepted result if any, how many methods
were invoked, and the `lastError` variable when the loop ended. -/
structure FallbackOutput where
  found : Option MethodResult
  attempted : Nat
  lastError : String
deriving Repr, DecidableEq

/-- The `for (const method of generationMethods)` loop of
`generateNanoBananoImage` (`src/nanoBananoGenerator.ts`): invoke each method in
order; on `result.success && result.imageBase64` return that result at once;
otherwise record the error in `lastError` and continue (a thrown exception is
caught and treated the same way). -/
def tryMethodsLoop : List MethodOutcome → String → FallbackOutput
  | [], lastErr => { found := none, attempted := 0, lastError := lastErr }
  | m :: rest, lastErr =>
      match m with
      | MethodOutcome.returns r =>
          if r.success && truthyStr r.imageBase64 then
            { found := some r, attempted := 1, lastError := lastErr }
          else
            match tryMethodsLoop rest (jsOr r.message ("Неизвестная ошибка")) with
            | out => { out with attempted := out.attempted + 1 }
      | MethodOutcome.throws err =>
          match tryMethodsLoop rest err with
          | out => { out with attempted := out.attempted + 1 }

/-- The `NanoBananoResult` interface of `src/nanoBananoGenerator.ts`
(`dailyCount` is optional there). -/
structure NanoBananoResult where
  success : Bool
  imageBase64 : Option String
  message : String
  dailyCount : Option Nat
  limitReached : Bool
deriving Repr, DecidableEq

/-- The aggregate failure `generateNanoBananoImage` returns when every method
failed (its lines after the loop): a fixed generic message, with `lastError`
only written to the error log. -/
def allMethodsFailedResult : NanoBananoResult :=
  { success := false
    imageBase64 := none
    message := "❌ Nano Banano не смог сгенерировать изображение. Попробуйте другое описание!"
    dailyCount := none
    limitReached := false }

/-- The success message of `generateNanoBananoImage`. -/
def nanoSuccessMessage (isImageToImage : Bool) (prompt : String) : String :=
  if isImageToImage then
    "✅ Nano Banano создал новое изображение на основе вашего фото!"
  else
    "✅ Nano Banano сгенерировал изображение: " ++ prompt

/-- Output of the fallback-executor core: the returned `NanoBananoResult`, the
user's row afterwards, and the `lastError` value that the all-failed branch
writes to the log. -/
structure NanoCoreOutput where
  result : NanoBananoResult
  db : Option UserRecord
  loggedLastError : String
deriving Repr, DecidableEq

/-- The fallback-executor core of `generateNanoBananoImage`
(`src/nanoBananoGenerator.ts`): run the method loop with `lastError = ""`; on an
accepted result, persist a history record (not part of the user row), call
`incrementUserImageCount` and answer with the artifact and the updated
`daily_image_count`; when every method failed, answer with the fixed aggregate
failure and log `lastError`. -/
def generateNanoBananoImageCore (today : Nat) (prompt : String)
    (isImageToImage : Bool) (db : Option UserRecord) (ms : List MethodOutcome) :
    NanoCoreOutput :=
  match tryMethodsLoop ms ("") with
  | out =>
    match out.found with
    | some r =>
        let db2 := incrementUserImageCount today db
        { result :=
            { success := true
              imageBase64 := r.imageBase64
              message := nanoSuccessMessage isImageToImage prompt
              dailyCount := db2.map (fun u => u.daily_image_count)
              limitReached := false }
          db := db2
          loggedLastError := out.lastError }
    | none =>
        { result := allMethodsFailedResult, db := db, loggedLastError := out.lastError }

/-- Running any serialized trace of quota statements from a row that is current
for today keeps the row on today's date and adds exactly the granted increments
to the counter, never passing `max count limit`. -/
theorem runQuotaTrace_le (today dailyLimit : Nat) :
    ∀ (ops : List QuotaOp) (name : String) (c : Nat),
      c + (runQuotaTrace today dailyLimit ops (some ⟨name, c, today⟩)).2 ≤ max c dailyLimit := by
  intro ops
  induction ops with
  | nil =>
      intro name c
      simp only [runQuotaTrace, Nat.add_zero]
      exact le_max_left _ _
  | cons op ops ih =>
      intro name c
      cases op with
      | upsert un =>
          have hstep : applyQuotaOp today dailyLimit (some ⟨name, c, today⟩) (QuotaOp.upsert un)
              = (some ⟨un, c, today⟩, false) := by
            simp [applyQuotaOp, upsertUserQuery]
          simp only [runQuotaTrace, hstep]
          have h := ih un c
          rcases hres : runQuotaTrace today dailyLimit ops (some ⟨un, c, today⟩) with ⟨s3, g⟩
          rw [hres] at h
          simpa using h
      | condInc =>
          by_cases hc : c < dailyLimit
          · have hstep : applyQuotaOp today dailyLimit (some ⟨name, c, today⟩) QuotaOp.condInc
                = (some ⟨name, c + 1, today⟩, true) := by
              simp [applyQuotaOp, condIncrementQuery, hc]
            simp only [runQuotaTrace, hstep]
            have h := ih name (c + 1)
            rcases hres : runQuotaTrace today dailyLimit ops (some ⟨name, c + 1, today⟩) with ⟨s3, g⟩
            rw [hres] at h
            have h1 : max (c + 1) dailyLimit = dailyLimit := Nat.max_eq_right hc
            have h2 : max c dailyLimit = dailyLimit := Nat.max_eq_right (Nat.le_of_lt hc)
            simp only [h1] at h
            simp only [h2, if_true]
            omega
          · have hstep : applyQuotaOp today dailyLimit (some ⟨name, c, today⟩) QuotaOp.condInc
                = (some ⟨name, c, today⟩, false) := by
              simp [applyQuotaOp, condIncrementQuery, hc]
            simp only [runQuotaTrace, hstep]
            have h := ih name c
            rcases hres : runQuotaTrace today dailyLimit ops (some ⟨name, c, today⟩) with ⟨s3, g⟩
            rw [hres] at h
            simpa using h

/-- A single non-admin `reserveGenerationSlot` call is exactly its two atomic
statements on the store: its row effect is the trace of `upsert` then `condInc`,
and it answers `canGenerate = true` precisely when its conditional increment
updated the row. -/
theorem reserve_matches_quota_ops (today : Nat) (userId username chatType : String)
    (db : Option UserRecord) (h : userId ≠ ADMIN_USER_ID) :
    (reserveGenerationSlot today userId username chatType false db).db =
      (runQuotaTrace today (dailyLimitFor chatType)
        [QuotaOp.upsert username, QuotaOp.condInc] db).1 ∧
    ((reserveGenerationSlot today userId username chatType false db).result.canGenerate = true ↔
      (runQuotaTrace today (dailyLimitFor chatType)
        [QuotaOp.upsert username, QuotaOp.condInc] db).2 = 1) := by
  by_cases hlt :
      (upsertUserQuery today username db).daily_image_count < dailyLimitFor chatType
  · constructor <;>
      simp [reserveGenerationSlot, h, reserveCore, runQuotaTrace, applyQuotaOp,
        condIncrementQuery, hlt]
  · constructor <;>
      simp [reserveGenerationSlot, h, reserveCore, runQuotaTrace, applyQuotaOp,
        condIncrementQuery, hlt]

/-- C1: for any user whose row is current with persisted count `countAtStart`
and any serialized interleaving of the atomic statements issued by concurrent
`reserveGenerationSlot` calls (each call contributes its upsert and its
conditional increment, and returns `canGenerate = true` exactly when its
increment was granted — `reserve_matches_quota_ops`), the number of granted
calls never exceeds `limit − countAtStart`. -/
theorem quotaConcurrencyBound (today dailyLimit countAtStart : Nat) (name : String)
    (ops : List QuotaOp) :
    (runQuotaTrace today dailyLimit ops (some ⟨name, countAtStart, today⟩)).2 ≤
      dailyLimit - countAtStart := by
  have h := runQuotaTrace_le today dailyLimit ops name countAtStart
  rcases Nat.le_total countAtStart dailyLimit with hc | hc
  · rw [Nat.max_eq_right hc] at h
    omega
  · rw [Nat.max_eq_left hc] at h
    omega

/-- C2: for a non-admin user whose row is current (`last_reset_date = today`)
with persisted count `c`, `reserveGenerationSlot` grants and increments the
persisted count to `c + 1` (reporting `dailyCount = c + 1`) exactly when
`c < limit`; at or above the limit the counter is left unchanged (only the
display name is upserted) and the call reports `canGenerate = false`,
`limitReached = true`. -/
theorem reserveIncrementIff (today : Nat) (userId username chatType name : String) (c : Nat)
    (hAdmin : userId ≠ ADMIN_USER_ID) :
    ((reserveGenerationSlot today userId username chatType false
        (some ⟨name, c, today⟩)).result.canGenerate = true ↔ c < dailyLimitFor chatType) ∧
    (reserveGenerationSlot today userId username chatType false (some ⟨name, c, today⟩)).db =
      some ⟨username, if c < dailyLimitFor chatType then c + 1 else c, today⟩ ∧
    (c < dailyLimitFor chatType →
      (reserveGenerationSlot today userId username chatType false
        (some ⟨name, c, today⟩)).result.dailyCount = c + 1) ∧
    (dailyLimitFor chatType ≤ c →
      (reserveGenerationSlot today userId username chatType false
          (some ⟨name, c, today⟩)).result.canGenerate = false ∧
      (reserveGenerationSlot today userId username chatType false
          (some ⟨name, c, today⟩)).result.limitReached = true) := by
  by_cases hc : c < dailyLimitFor chatType
  · refine ⟨?_, ?_, ?_, ?_⟩ <;>
      simp [reserveGenerationSlot, hAdmin, reserveCore, upsertUserQuery,
        condIncrementQuery, hc]
  · refine ⟨?_, ?_, ?_, ?_⟩ <;>
      simp [reserveGenerationSlot, hAdmin, reserveCore, upsertUserQuery,
        condIncrementQuery, hc]

/-- Witness for C2 at a concrete input: user "55" (not the admin), current row
with count 1 in a private chat. -/
theorem reserveIncrementIff_witness :
    (((reserveGenerationSlot 100 ("55") ("bob") ("private") false
        (some ⟨("ann"), 1, 100⟩)).result.canGenerate = true ↔ 1 < dailyLimitFor ("private")) ∧
    (reserveGenerationSlot 100 ("55") ("bob") ("private") false (some ⟨("ann"), 1, 100⟩)).db =
      some ⟨("bob"), if 1 < dailyLimitFor ("private") then 1 + 1 else 1, 100⟩ ∧
    (1 < dailyLimitFor ("private") →
      (reserveGenerationSlot 100 ("55") ("bob") ("private") false
        (some ⟨("ann"), 1, 100⟩)).result.dailyCount = 1 + 1) ∧
    (dailyLimitFor ("private") ≤ 1 →
      (reserveGenerationSlot 100 ("55") ("bob") ("private") false
          (some ⟨("ann"), 1, 100⟩)).result.canGenerate = false ∧
      (reserveGenerationSlot 100 ("55") ("bob") ("private") false
          (some ⟨("ann"), 1, 100⟩)).result.limitReached = true)) :=
  reserveIncrementIff 100 ("55") ("bob") ("private") ("ann") 1 (by decide)

/-- C3: the delivery stage does mutate the quota counter.  For a non-admin user
with a fresh current row, one successful generation followed by a successful
delivery leaves `daily_image_count = 2`: the slot was consumed at reservation
time and `step2` increments the same counter again after `sendPhoto` succeeds.
The second conjunct shows the other half of the claim holding: when delivery
fails the reserved slot is kept (count stays 1, not released and not
re-incremented). -/
theorem deliveredGenerationDoubleCounts :
    (runGenerationWorkflow 100 ("42") ("user") ("private") true true
        (some ⟨("user"), 0, 100⟩)).db = some ⟨("user"), 2, 100⟩ ∧
    (runGenerationWorkflow 100 ("42") ("user") ("private") true false
        (some ⟨("user"), 0, 100⟩)).db = some ⟨("user"), 1, 100⟩ := by decide

/-- C4: lazy reset on access.  For a stale row (`last_reset_date < today`) with
any positive count `K`, the upsert step of `reserveGenerationSlot` first zeroes
the counter (effective count 0 before the call's own increment), the whole
reservation behaves exactly as on a fresh row with count 0, and `getUserStats`
likewise reports as for count 0. -/
theorem lazyResetOnAccess (today yesterday K : Nat) (userId username chatType name : String)
    (hAdmin : userId ≠ ADMIN_USER_ID) (hstale : yesterday < today) (hK : 0 < K) :
    upsertUserQuery today username (some ⟨name, K, yesterday⟩) = ⟨username, 0, today⟩ ∧
    reserveGenerationSlot today userId username chatType false (some ⟨name, K, yesterday⟩) =
      reserveGenerationSlot today userId username chatType false (some ⟨name, 0, today⟩) ∧
    getUserStats today userId chatType false (some ⟨name, K, yesterday⟩) =
      getUserStats today userId chatType false (some ⟨name, 0, today⟩) := by
  refine ⟨?_, ?_, ?_⟩
  · simp [upsertUserQuery, hstale]
  · simp [reserveGenerationSlot, hAdmin, upsertUserQuery, hstale]
  · simp [getUserStats, hAdmin, hstale]

/-- Witness for C4 at a concrete input: user "42", stale row from day 99 with
count 2, queried on day 100. -/
theorem lazyResetOnAccess_witness :
    upsertUserQuery 100 ("bob") (some ⟨("ann"), 2, 99⟩) = ⟨("bob"), 0, 100⟩ ∧
    reserveGenerationSlot 100 ("42") ("bob") ("private") false (some ⟨("ann"), 2, 99⟩) =
      reserveGenerationSlot 100 ("42") ("bob") ("private") false (some ⟨("ann"), 0, 100⟩) ∧
    getUserStats 100 ("42") ("private") false (some ⟨("ann"), 2, 99⟩) =
      getUserStats 100 ("42") ("private") false (some ⟨("ann"), 0, 100⟩) :=
  lazyResetOnAccess 100 99 2 ("42") ("bob") ("private") ("ann") (by decide) (by decide) (by decide)

/-- C5: for a non-admin user, `releaseReservedSlot` decrements a positive
current-day count by exactly one (never below zero), is a no-op at count 0, and
is a no-op on a row whose `last_reset_date` is not today. -/
theorem releaseSlotBehavior (today d c k : Nat) (userId name : String)
    (hAdmin : userId ≠ ADMIN_USER_ID) :
    (releaseReservedSlot today userId false (some ⟨name, c + 1, today⟩)).1 =
      some ⟨name, c, today⟩ ∧
    (releaseReservedSlot today userId false (some ⟨name, 0, today⟩)).1 =
      some ⟨name, 0, today⟩ ∧
    (d ≠ today →
      (releaseReservedSlot today userId false (some ⟨name, k, d⟩)).1 = some ⟨name, k, d⟩) := by
  refine ⟨?_, ?_, fun hd => ?_⟩
  · simp [releaseReservedSlot, hAdmin]
  · simp [releaseReservedSlot, hAdmin]
  · simp [releaseReservedSlot, hAdmin, hd]

/-- Witness for C5 at a concrete input: user "42", rows with counts 2 and 0 on
day 100, and a stale row from day 99. -/
theorem releaseSlotBehavior_witness :
    (releaseReservedSlot 100 ("42") false (some ⟨("ann"), 1 + 1, 100⟩)).1 =
      some ⟨("ann"), 1, 100⟩ ∧
    (releaseReservedSlot 100 ("42") false (some ⟨("ann"), 0, 100⟩)).1 =
      some ⟨("ann"), 0, 100⟩ ∧
    (99 ≠ 100 →
      (releaseReservedSlot 100 ("42") false (some ⟨("ann"), 5, 99⟩)).1 =
        some ⟨("ann"), 5, 99⟩) :=
  releaseSlotBehavior 100 99 1 5 ("42") ("ann") (by decide)

/-- C6: when the storage queries throw during a non-admin
`reserveGenerationSlot` call, the call fails closed: generation is denied, the
row is untouched, and the attached advisory message is the generic
try-again-later error, not either of the limit-reached messages. -/
theorem reserveFailsClosed (today : Nat) (userId username chatType : String)
    (db : Option UserRecord) (hAdmin : userId ≠ ADMIN_USER_ID) :
    (reserveGenerationSlot today userId username chatType true db).result.canGenerate = false ∧
    (reserveGenerationSlot today userId username chatType true db).result.message =
      dbErrorMessage ∧
    (reserveGenerationSlot today userId username chatType true db).db = db ∧
    dbErrorMessage ≠ privateLimitMessage DAILY_LIMIT_PRIVATE ∧
    dbErrorMessage ≠ groupLimitMessage DAILY_LIMIT_GROUP := by
  refine ⟨?_, ?_, ?_, by decide, by decide⟩ <;>
    simp [reserveGenerationSlot, hAdmin, dbErrorResult]

/-- Witness for C6 at a concrete input: user "42", private chat, empty store,
storage failing. -/
theorem reserveFailsClosed_witness :
    (reserveGenerationSlot 100 ("42") ("bob") ("private") true none).result.canGenerate = false ∧
    (reserveGenerationSlot 100 ("42") ("bob") ("private") true none).result.message =
      dbErrorMessage ∧
    (reserveGenerationSlot 100 ("42") ("bob") ("private") true none).db = none ∧
    dbErrorMessage ≠ privateLimitMessage DAILY_LIMIT_PRIVATE ∧
    dbErrorMessage ≠ groupLimitMessage DAILY_LIMIT_GROUP :=
  reserveFailsClosed 100 ("42") ("bob") ("private") none (by decide)

/-- The fallback loop on a list whose prefix is all rejected attempts followed
by an accepted one: it returns that first accepted result and invokes exactly
the prefix plus the accepted method, whatever the incoming `lastError`. -/
theorem tryMethodsLoop_first_success (pre : List MethodOutcome) :
    ∀ (post : List MethodOutcome) (r : MethodResult),
      (∀ x ∈ pre, isSuccessOutcome x = false) →
      isSuccessOutcome (MethodOutcome.returns r) = true →
      ∀ e, (tryMethodsLoop (pre ++ MethodOutcome.returns r :: post) e).found = some r ∧
        (tryMethodsLoop (pre ++ MethodOutcome.returns r :: post) e).attempted =
          pre.length + 1 := by
  induction pre with
  | nil =>
      intro post r _ hr e
      have hcond : (r.success && truthyStr r.imageBase64) = true := by
        simpa [isSuccessOutcome] using hr
      simp [tryMethodsLoop, hcond]
  | cons x xs ih =>
      intro post r hpre hr e
      have hx : isSuccessOutcome x = false := hpre x (List.mem_cons_self x xs)
      have hxs : ∀ y ∈ xs, isSuccessOutcome y = false :=
        fun y hy => hpre y (List.mem_cons_of_mem x hy)
      cases x with
      | returns r' =>
          have hcond : (r'.success && truthyStr r'.imageBase64) = false := by
            simpa [isSuccessOutcome] using hx
          have h := ih post r hxs hr (jsOr r'.message ("Неизвестная ошибка"))
          simp only [List.cons_append, tryMethodsLoop, hcond, Bool.false_eq_true, if_false]
          exact ⟨h.1, by simp [h.2, List.length_cons]⟩
      | throws err =>
          have h := ih post r hxs hr err
          simp only [List.cons_append, tryMethodsLoop]
          exact ⟨h.1, by simp [h.2, List.length_cons]⟩

/-- C7: the fallback executor invokes the generation methods in their fixed
priority order and stops at the first one reporting success with a non-empty
artifact: that result is returned (its artifact becomes the success answer) and
only `pre.length + 1` methods are ever invoked, so every method after the first
success is never invoked. -/
theorem fallbackShortCircuits (pre post : List MethodOutcome) (r : MethodResult)
    (e0 : String) (today : Nat) (prompt : String) (iti : Bool) (db : Option UserRecord)
    (hpre : ∀ x ∈ pre, isSuccessOutcome x = false)
    (hr : isSuccessOutcome (MethodOutcome.returns r) = true) :
    (tryMethodsLoop (pre ++ MethodOutcome.returns r :: post) e0).found = some r ∧
    (tryMethodsLoop (pre ++ MethodOutcome.returns r :: post) e0).attempted = pre.length + 1 ∧
    (generateNanoBananoImageCore today prompt iti db
        (pre ++ MethodOutcome.returns r :: post)).result.success = true ∧
    (generateNanoBananoImageCore today prompt iti db
        (pre ++ MethodOutcome.returns r :: post)).result.imageBase64 = r.imageBase64 := by
  have h0 := tryMethodsLoop_first_success pre post r hpre hr e0
  have h1 := tryMethodsLoop_first_success pre post r hpre hr ("")
  refine ⟨h0.1, h0.2, ?_, ?_⟩ <;>
    simp [generateNanoBananoImageCore, h1.1]

/-- Witness for C7 at a concrete input: method A fails, method B succeeds with
artifact "IMG", method C would also succeed but is positioned after B. -/
theorem fallbackShortCircuits_witness :
    (tryMethodsLoop ([MethodOutcome.returns ⟨false, none, some ("errA")⟩] ++
        MethodOutcome.returns ⟨true, some ("IMG"), none⟩ ::
          [MethodOutcome.returns ⟨true, some ("IMG2"), none⟩]) ("")).found =
      some ⟨true, some ("IMG"), none⟩ ∧
    (tryMethodsLoop ([MethodOutcome.returns ⟨false, none, some ("errA")⟩] ++
        MethodOutcome.returns ⟨true, some ("IMG"), none⟩ ::
          [MethodOutcome.returns ⟨true, some ("IMG2"), none⟩]) ("")).attempted =
      [MethodOutcome.returns ⟨false, none, some ("errA")⟩].length + 1 ∧
    (generateNanoBananoImageCore 100 ("p") false none
        ([MethodOutcome.returns ⟨false, none, some ("errA")⟩] ++
          MethodOutcome.returns ⟨true, some ("IMG"), none⟩ ::
            [MethodOutcome.returns ⟨true, some ("IMG2"), none⟩])).result.success = true ∧
    (generateNanoBananoImageCore 100 ("p") false none
        ([MethodOutcome.returns ⟨false, none, some ("errA")⟩] ++
          MethodOutcome.returns ⟨true, some ("IMG"), none⟩ ::
            [MethodOutcome.returns ⟨true, some ("IMG2"), none⟩])).result.imageBase64 =
      some ("IMG") :=
  fallbackShortCircuits [MethodOutcome.returns ⟨false, none, some ("errA")⟩]
    [MethodOutcome.returns ⟨true, some ("IMG2"), none⟩] ⟨true, some ("IMG"), none⟩
    ("") 100 ("p") false none (by decide) (by decide)

/-- On a list of attempts that are all rejected, the fallback loop accepts
nothing and its `lastError` variable ends as the error of the last attempt
(folding from the incoming value). -/
theorem tryMethodsLoop_all_fail (ms : List MethodOutcome) :
    (∀ x ∈ ms, isSuccessOutcome x = false) → ∀ e,
      (tryMethodsLoop ms e).found = none ∧
      (tryMethodsLoop ms e).lastError =
        ms.foldl (fun _ x => outcomeToError x) e := by
  induction ms with
  | nil =>
      intro _ e
      simp [tryMethodsLoop]
  | cons x xs ih =>
      intro hfail e
      have hx : isSuccessOutcome x = false := hfail x (List.mem_cons_self x xs)
      have hxs : ∀ y ∈ xs, isSuccessOutcome y = false :=
        fun y hy => hfail y (List.mem_cons_of_mem x hy)
      cases x with
      | returns r =>
          have hcond : (r.success && truthyStr r.imageBase64) = false := by
            simpa [isSuccessOutcome] using hx
          have h := ih hxs (jsOr r.message ("Неизвестная ошибка"))
          simp only [tryMethodsLoop, hcond, Bool.false_eq_true, if_false, List.foldl_cons]
          exact ⟨h.1, by simpa [outcomeToError] using h.2⟩
      | throws err =>
          have h := ih hxs err
          simp only [tryMethodsLoop, List.foldl_cons]
          exact ⟨h.1, by simpa [outcomeToError] using h.2⟩

/-- C8 counterexample: the aggregate failure does not carry the last observed
provider error.  Two all-failing runs that differ only in the last provider's
error produce the *same* returned result, whose message is the fixed generic
string rather than the last error; the last error only ends up in the logged
diagnostic value. -/
theorem aggregateFailureDropsError :
    (generateNanoBananoImageCore 100 ("p") false none
        [MethodOutcome.returns ⟨false, none, some ("errA")⟩,
         MethodOutcome.returns ⟨false, none, some ("errB")⟩]).result =
      (generateNanoBananoImageCore 100 ("p") false none
        [MethodOutcome.returns ⟨false, none, some ("errA")⟩,
         MethodOutcome.returns ⟨false, none, some ("errC")⟩]).result ∧
    (generateNanoBananoImageCore 100 ("p") false none
        [MethodOutcome.returns ⟨false, none, some ("errA")⟩,
         MethodOutcome.returns ⟨false, none, some ("errB")⟩]).result.message ≠ ("errB") ∧
    (generateNanoBananoImageCore 100 ("p") false none
        [MethodOutcome.returns ⟨false, none, some ("errA")⟩,
         MethodOutcome.returns ⟨false, none, some ("errB")⟩]).result.message =
      allMethodsFailedResult.message ∧
    (generateNanoBananoImageCore 100 ("p") false none
        [MethodOutcome.returns ⟨false, none, some ("errA")⟩,
         MethodOutcome.returns ⟨false, none, some ("errB")⟩]).loggedLastError = ("errB") := by
  decide

/-- C8 as amended: when every provider attempt fails (thrown exceptions caught
and treated like reported failures), the executor returns the fixed aggregate
failure result — generic message, no artifact, store untouched — and the last
observed provider error is only written to the diagnostic log. -/
theorem aggregateFailureAmended (today : Nat) (prompt : String) (iti : Bool)
    (db : Option UserRecord) (ms : List MethodOutcome) (m : MethodOutcome)
    (hfail : ∀ x ∈ ms ++ [m], isSuccessOutcome x = false) :
    (generateNanoBananoImageCore today prompt iti db (ms ++ [m])).result =
      allMethodsFailedResult ∧
    (generateNanoBananoImageCore today prompt iti db (ms ++ [m])).db = db ∧
    (generateNanoBananoImageCore today prompt iti db (ms ++ [m])).loggedLastError =
      outcomeToError m := by
  have h := tryMethodsLoop_all_fail (ms ++ [m]) hfail ("")
  refine ⟨?_, ?_, ?_⟩ <;>
    simp [generateNanoBananoImageCore, h.1, h.2, List.foldl_append]

/-- Witness for C8's amended theorem at a concrete input: a reported failure
followed by a thrown exception; the logged error is the thrown one. -/
theorem aggregateFailureAmended_witness :
    (generateNanoBananoImageCore 100 ("p") false none
        ([MethodOutcome.returns ⟨false, none, some ("errA")⟩] ++
          [MethodOutcome.throws ("boomB")])).result = allMethodsFailedResult ∧
    (generateNanoBananoImageCore 100 ("p") false none
        ([MethodOutcome.returns ⟨false, none, some ("errA")⟩] ++
          [MethodOutcome.throws ("boomB")])).db = none ∧
    (generateNanoBananoImageCore 100 ("p") false none
        ([MethodOutcome.returns ⟨false, none, some ("errA")⟩] ++
          [MethodOutcome.throws ("boomB")])).loggedLastError =
      outcomeToError (MethodOutcome.throws ("boomB")) :=
  aggregateFailureAmended 100 ("p") false none
    [MethodOutcome.returns ⟨false, none, some ("errA")⟩]
    (MethodOutcome.throws ("boomB")) (by decide)

/-- C9 counterexample: the administrator bypass does touch the shared
connection pool.  Both `reserveGenerationSlot` and `releaseReservedSlot`
acquire a pool client (`pool.connect()`) before the admin check, so an admin
call's event trace contains a pool acquisition. -/
theorem adminBypassTouchesPool :
    PoolEvent.connect ∈
      (reserveGenerationSlot 100 ADMIN_USER_ID ("adm") ("private") false none).events ∧
    PoolEvent.connect ∈ (releaseReservedSlot 100 ADMIN_USER_ID false none).2 := by
  decide

/-- C9 as amended: for the configured administrator, `reserveGenerationSlot`
returns the admin result (`canGenerate = true`, `isAdmin = true`, sentinel
`remaining = 999`) without any store mutation, and `releaseReservedSlot` is a
no-op on the store; neither issues a single query — but both acquire and
immediately release a client from the shared pool before the admin check. -/
theorem adminBypassAmended (today : Nat) (username chatType : String) (dbFails : Bool)
    (db : Option UserRecord) :
    (reserveGenerationSlot today ADMIN_USER_ID username chatType dbFails db).result =
      adminResult ∧
    (reserveGenerationSlot today ADMIN_USER_ID username chatType dbFails db).db = db ∧
    (reserveGenerationSlot today ADMIN_USER_ID username chatType dbFails db).events =
      [PoolEvent.connect, PoolEvent.release] ∧
    PoolEvent.query ∉
      (reserveGenerationSlot today ADMIN_USER_ID username chatType dbFails db).events ∧
    (releaseReservedSlot today ADMIN_USER_ID dbFails db).1 = db ∧
    (releaseReservedSlot today ADMIN_USER_ID dbFails db).2 =
      [PoolEvent.connect, PoolEvent.release] := by
  refine ⟨?_, ?_, ?_, ?_, ?_, ?_⟩ <;>
    simp [reserveGenerationSlot, releaseReservedSlot]

/-- C10: for a non-admin user, `getUserStats` returns `null` both when the user
has no persisted row and when the storage query throws. -/
theorem getUserStatsNullCases (today : Nat) (userId chatType : String)
    (db : Option UserRecord) (hAdmin : userId ≠ ADMIN_USER_ID) :
    (getUserStats today userId chatType false none).1 = none ∧
    (getUserStats today userId chatType true db).1 = none := by
  constructor <;> simp [getUserStats, hAdmin]

/-- Witness for C10 at a concrete input: user "42" with no row, and with the
storage failing. -/
theorem getUserStatsNullCases_witness :
    (getUserStats 100 ("42") ("private") false none).1 = none ∧
    (getUserStats 100 ("42") ("private") true none).1 = none :=
  getUserStatsNullCases 100 ("42") ("private") none (by decide)
